import Mathlib

/-!
Shallow embedding of the vcon-twilio-adapter normalization and delivery
pipeline (src/core and src/adapters), together with theorems checking the
natural-language specification against it.

Conventions of the embedding:
* A webhook payload is a string-keyed mapping with string values, modelled
  as `Payload := String → Option String`; `dictGetD p k d` models Python's
  `p.get(k, d)`.
* Machine floats that only ever hold small exact values (durations) are
  modelled as `ℚ`.
* Network and filesystem effects are passed in as explicit arguments
  (the outcome of a download, the outcome of an HTTP POST, the content of
  the state file), so every function here is pure and executable.
-/

namespace VconAdapter

/-- A webhook payload: a string-keyed dictionary with string values. -/
def Payload : Type := String → Option String

/-- Python `payload.get(key, default)` for string-valued fields. -/
def dictGetD (p : Payload) (key default : String) : String :=
  (p key).getD default

/-- A payload is well-formed when every value actually present is a
non-empty string (the form of payload the spec calls a well-formed event). -/
def WellFormed (p : Payload) : Prop :=
  ∀ k v, p k = some v → v ≠ ""

/-- Python's `str.lower()`, character by character (the strings compared in
this code base are ASCII, where this agrees with Unicode lowercasing). -/
def strToLower (s : String) : String :=
  String.mk (s.data.map Char.toLower)

/-! ### `core/base_builder.py`: originator classification -/

/-- Embeds `BaseVconBuilder._determine_originator`
(src/core/base_builder.py:119-132): lowercase the direction and test
membership in the tuple `("outbound", "outbound-api", "outgoing")`. -/
def determineOriginator (direction : String) : Nat :=
  if strToLower direction = "outbound" ∨ strToLower direction = "outbound-api" ∨
      strToLower direction = "outgoing" then 0
  else 1

/-! ### Parser field accessors (claim C5's fifteen field functions)

Each definition mirrors the corresponding Python property, which is a
chain of `dict.get` calls with the next lookup as default. -/

/-- `TwilioRecordingData`: `webhook_data.get("RecordingSid", "")`. -/
def twilioRecordingId (p : Payload) : String :=
  dictGetD p "RecordingSid" ""

/-- `TwilioRecordingData`: `webhook_data.get("From", "")`. -/
def twilioFromNumber (p : Payload) : String :=
  dictGetD p "From" ""

/-- `TwilioRecordingData`: `webhook_data.get("To", "")`. -/
def twilioToNumber (p : Payload) : String :=
  dictGetD p "To" ""

/-- `FreeSwitchRecordingData.recording_id`:
`data.get("uuid", data.get("call_uuid", ""))`. -/
def freeswitchRecordingId (p : Payload) : String :=
  dictGetD p "uuid" (dictGetD p "call_uuid" "")

/-- `FreeSwitchRecordingData.from_number`:
`data.get("caller_id_number", data.get("Caller-Caller-ID-Number", ""))`. -/
def freeswitchFromNumber (p : Payload) : String :=
  dictGetD p "caller_id_number" (dictGetD p "Caller-Caller-ID-Number" "")

/-- `FreeSwitchRecordingData.to_number`:
`data.get("destination_number", data.get("Caller-Destination-Number", ""))`. -/
def freeswitchToNumber (p : Payload) : String :=
  dictGetD p "destination_number" (dictGetD p "Caller-Destination-Number" "")

/-- `AsteriskRecordingData.recording_id`:
`data.get("recording_name", data.get("name", data.get("Uniqueid", "")))`. -/
def asteriskRecordingId (p : Payload) : String :=
  dictGetD p "recording_name" (dictGetD p "name" (dictGetD p "Uniqueid" ""))

/-- `AsteriskRecordingData.from_number`:
`data.get("caller_id_num", data.get("CallerIDNum", ""))`. -/
def asteriskFromNumber (p : Payload) : String :=
  dictGetD p "caller_id_num" (dictGetD p "CallerIDNum" "")

/-- `AsteriskRecordingData.to_number`:
`data.get("connected_line_num", data.get("ConnectedLineNum",
data.get("extension", "")))`. -/
def asteriskToNumber (p : Payload) : String :=
  dictGetD p "connected_line_num"
    (dictGetD p "ConnectedLineNum" (dictGetD p "extension" ""))

/-- `TelnyxRecordingData.recording_id` over the resolved `_payload` dict:
`payload.get("recording_id", payload.get("call_control_id", ""))`. -/
def telnyxRecordingId (p : Payload) : String :=
  dictGetD p "recording_id" (dictGetD p "call_control_id" "")

/-- `TelnyxRecordingData.from_number`: `payload.get("from", "")`. -/
def telnyxFromNumber (p : Payload) : String :=
  dictGetD p "from" ""

/-- `TelnyxRecordingData.to_number`: `payload.get("to", "")`. -/
def telnyxToNumber (p : Payload) : String :=
  dictGetD p "to" ""

/-- `BandwidthRecordingData.recording_id`: `data.get("recordingId", "")`. -/
def bandwidthRecordingId (p : Payload) : String :=
  dictGetD p "recordingId" ""

/-- `BandwidthRecordingData.from_number`: `data.get("from", "")`. -/
def bandwidthFromNumber (p : Payload) : String :=
  dictGetD p "from" ""

/-- `BandwidthRecordingData.to_number`: `data.get("to", "")`. -/
def bandwidthToNumber (p : Payload) : String :=
  dictGetD p "to" ""

/-! ### `adapters/asterisk/builder.py`: direction inference -/

/-- Python's `sub in s` on lists of characters: `sub` starts at some
position of `l`. -/
def listStartsWith : List Char → List Char → Bool
  | [], _ => true
  | _ :: _, [] => false
  | a :: as, b :: bs => a = b && listStartsWith as bs

/-- Sliding-window substring test, modelling Python's `sub in s`. -/
def listContainsSub (sub : List Char) : List Char → Bool
  | [] => listStartsWith sub []
  | l@(_ :: t) => listStartsWith sub l || listContainsSub sub t

/-- Python's `sub in s` for strings. -/
def strContainsSub (s sub : String) : Bool :=
  listContainsSub sub.toList s.toList

/-- Embeds `AsteriskRecordingData.direction`
(src/adapters/asterisk/builder.py:65-80): use the explicit `direction`
field lowercased when non-empty, else infer `outbound` when the `context`
field contains `outbound` or `from-internal` case-insensitively, else
`inbound`. -/
def asteriskDirection (p : Payload) : String :=
  let direction := dictGetD p "direction" ""
  if direction ≠ "" then strToLower direction
  else
    let context := dictGetD p "context" ""
    if strContainsSub (strToLower context) "outbound" ||
        strContainsSub (strToLower context) "from-internal" then "outbound"
    else "inbound"

/-! ### `adapters/bandwidth/builder.py`: ISO-8601 duration parsing

`BandwidthRecordingData.duration_seconds` applies
`re.match(r"PT(?:(\d+)H)?(?:(\d+)M)?(?:(\d+(?:\.\d+)?)S)?", s)` and, when a
match exists (i.e. exactly when `s` starts with the literal `PT`, since
every component group is optional), returns
`hours*3600 + minutes*60 + seconds` with absent groups as zero.  The
embedding below is a deterministic parser equivalent to that regex: each
optional group consumes a maximal digit run only when it is immediately
followed by its unit letter (regex backtracking over `\d+` can never help,
because a shorter digit run is followed by a digit, not a unit letter). -/

/-- Numeric value of a digit run. -/
def digitsToNat (ds : List Char) : Nat :=
  ds.foldl (fun n c => n * 10 + (c.toNat - '0'.toNat)) 0

/-- One optional regex group `(?:(\d+)U)?` at the head of the input:
consume a maximal digit run followed by the unit letter `u`, or consume
nothing. -/
def parseUnit (u : Char) (cs : List Char) : Option Nat × List Char :=
  let ds := cs.takeWhile Char.isDigit
  let rest := cs.dropWhile Char.isDigit
  match rest with
  | c :: rest' =>
      if ds ≠ [] ∧ c = u then (some (digitsToNat ds), rest')
      else (none, cs)
  | [] => (none, cs)

/-- Exact value of an integer-dot-fraction decimal literal. -/
def decimalToRat (ds fs : List Char) : ℚ :=
  (digitsToNat ds : ℚ) + (digitsToNat fs : ℚ) / ((10 : ℚ) ^ fs.length)

/-- The seconds group `(?:(\d+(?:\.\d+)?)S)?` at the head of the input. -/
def parseSecondsGroup (cs : List Char) : Option ℚ × List Char :=
  let ds := cs.takeWhile Char.isDigit
  let rest := cs.dropWhile Char.isDigit
  if ds = [] then (none, cs)
  else
    match rest with
    | 'S' :: rest' => (some (digitsToNat ds : ℚ), rest')
    | '.' :: rest1 =>
        let fs := rest1.takeWhile Char.isDigit
        let rest2 := rest1.dropWhile Char.isDigit
        match fs, rest2 with
        | _ :: _, 'S' :: rest3 => (some (decimalToRat ds fs), rest3)
        | _, _ => (none, cs)
    | _ => (none, cs)

/-- Embeds the regex match plus arithmetic of
`BandwidthRecordingData.duration_seconds`
(src/adapters/bandwidth/builder.py:95-110): `none` exactly when `re.match`
finds no match, i.e. when the string does not start with `PT`. -/
def isoDurationSeconds (s : String) : Option ℚ :=
  match s.toList with
  | 'P' :: 'T' :: rest =>
      let (h, r1) := parseUnit 'H' rest
      let (m, r2) := parseUnit 'M' r1
      let (sec, _) := parseSecondsGroup r2
      some ((h.getD 0 : ℚ) * 3600 + (m.getD 0 : ℚ) * 60 + sec.getD 0)
  | _ => none

/-- Embeds `BandwidthRecordingData.duration_seconds`
(src/adapters/bandwidth/builder.py:86-110): `data.get("duration", "")`,
empty/missing means `None`, otherwise the regex parse above. -/
def bandwidthDurationSeconds (p : Payload) : Option ℚ :=
  let durationStr := dictGetD p "duration" ""
  if durationStr = "" then none
  else isoDurationSeconds durationStr

/-! ### `core/base_builder.py`: the vCon builder

`BaseVconBuilder.build` is pure apart from the audio download, whose
outcome is passed in as an explicit `Option` of bytes (`bytes` are
`List Nat`, each entry < 256).  The vCon library calls (`Vcon.build_new`,
`add_party`, `Dialog(**kwargs)`, `add_tag`) amount to record construction
here; the fresh uuid is likewise an explicit argument. -/

/-- The `MIME_TYPES` table with `.get(fmt, "audio/wav")`
(src/core/base_builder.py:17-20 and 164). -/
def mimeTypeFor (fmt : String) : String :=
  if fmt = "wav" then "audio/wav"
  else if fmt = "mp3" then "audio/mpeg"
  else "audio/wav"

/-- The base64 alphabet as a list of characters. -/
def base64Alphabet : List Char :=
  "ABCDEFGHIJKLMNOPQRSTUVWXYZabcdefghijklmnopqrstuvwxyz0123456789+/".data

/-- Character for a 6-bit group. -/
def b64Char (n : Nat) : Char :=
  base64Alphabet.getD n 'A'

/-- Standard base64 with padding, as produced by Python's
`base64.b64encode(...).decode("utf-8")`. -/
def base64Encode : List Nat → List Char
  | [] => []
  | [a] => [b64Char (a / 4), b64Char (a % 4 * 16), '=', '=']
  | [a, b] => [b64Char (a / 4), b64Char (a % 4 * 16 + b / 16), b64Char (b % 16 * 4), '=']
  | a :: b :: c :: rest =>
      b64Char (a / 4) :: b64Char (a % 4 * 16 + b / 16) ::
        b64Char (b % 16 * 4 + c / 64) :: b64Char (c % 64) :: base64Encode rest

/-- The normalized recording fields `BaseVconBuilder.build` reads from a
`BaseRecordingData` instance.  `recording_url = ""` is the falsy case of
the Python `if ... recording_data.recording_url`; `start_time` is kept as
its serialized form. -/
structure RecordingData where
  recording_id : String
  from_number : String
  to_number : String
  direction : String
  recording_url : String
  duration_seconds : Option ℚ
  start_time : String
  platform_tags : List (String × String)

/-- The keyword arguments assembled for `Dialog(**dialog_kwargs)`
(src/core/base_builder.py:165-199); optional keys are `Option`s that are
`none` when the key is never inserted. -/
structure DialogEntry where
  type : String
  start : String
  parties : List Nat
  originator : Nat
  mimetype : String
  duration : Option ℚ
  body : Option (List Char)
  encoding : Option String
  filename : Option String
  url : Option String
  deriving DecidableEq

/-- The vCon object as assembled by `build`: uuid, creation time, party
telephone numbers in insertion order, dialogs in insertion order, tags in
insertion order. -/
structure VconRecord where
  uuid : String
  created_at : String
  parties : List String
  dialogs : List DialogEntry
  tags : List (String × String)
  deriving DecidableEq

/-- Embeds `BaseVconBuilder.build` (src/core/base_builder.py:134-223).
`download_recordings` and `recording_format` are the builder's
constructor fields, `uuid` the id `Vcon.build_new()` generates, `audio`
the value `_download_recording` returns (`none` = download failed,
`some []` = empty byte string, falsy in Python's `if audio_data:`). -/
def buildVcon (download_recordings : Bool) (recording_format : String)
    (adapter_source : String) (uuid : String) (rd : RecordingData)
    (audio : Option (List Nat)) : Option VconRecord :=
  let originator := determineOriginator rd.direction
  let mime := mimeTypeFor recording_format
  let base : DialogEntry :=
    { type := "recording", start := rd.start_time, parties := [0, 1],
      originator := originator, mimetype := mime,
      duration := rd.duration_seconds,
      body := none, encoding := none, filename := none, url := none }
  let dialog : DialogEntry :=
    if download_recordings ∧ rd.recording_url ≠ "" then
      match audio with
      | some bs =>
          if bs ≠ [] then
            { base with body := some (base64Encode bs),
                        encoding := some "base64",
                        filename := some (rd.recording_id ++ "." ++ recording_format) }
          else
            { base with url := some (rd.recording_url ++ "." ++ recording_format) }
      | none =>
          { base with url := some (rd.recording_url ++ "." ++ recording_format) }
    else if rd.recording_url ≠ "" then
      { base with url := some (rd.recording_url ++ "." ++ recording_format) }
    else base
  some { uuid := uuid, created_at := rd.start_time,
         parties := [rd.from_number, rd.to_number],
         dialogs := [dialog],
         tags := ("source", adapter_source) :: rd.platform_tags }

/-! ### `core/tracker.py`: the state tracker

`self.state` is a JSON object keyed by recording id; it is modelled as an
association list of entries.  An entry is the dict
`{"vcon_uuid": ..., "timestamp": ..., "status": ..., **metadata}`; the
keyword-argument calling convention guarantees `metadata` cannot contain
the three named keys, so the entry is modelled as a record with a
metadata list.  The backing file holds either nothing (missing), bytes
that `json.load` rejects (covering empty and corrupt files), or a
serialized store. -/

/-- One value of the tracker's state dict
(src/core/tracker.py:78-83). -/
structure TrackerEntry where
  vcon_uuid : String
  timestamp : String
  status : String
  metadata : List (String × String)
  deriving DecidableEq

/-- The in-memory `self.state` dict. -/
def Store : Type := List (String × TrackerEntry)

/-- Dict lookup `self.state.get(recording_id)`. -/
def storeGet (s : Store) (rid : String) : Option TrackerEntry :=
  match s with
  | [] => none
  | (k, e) :: rest => if k = rid then some e else storeGet rest rid

/-- Dict assignment `self.state[recording_id] = entry`: replace the
existing binding or append a new one. -/
def storeSet (s : Store) (rid : String) (e : TrackerEntry) : Store :=
  match s with
  | [] => [(rid, e)]
  | (k, e') :: rest =>
      if k = rid then (k, e) :: rest else (k, e') :: storeSet rest rid e

/-- The tracker's backing state file: absent, unparsable as JSON (which
includes the empty file), or a parsed store. -/
inductive StateFile where
  | missing
  | unparsable
  | stored (s : Store)

/-- Embeds `StateTracker._load` (src/core/tracker.py:31-42): a missing
file and a `json.load` failure both yield the empty dict; otherwise the
file's content. -/
def trackerLoad (f : StateFile) : Store :=
  match f with
  | .missing => []
  | .unparsable => []
  | .stored s => s

/-- Embeds `StateTracker._save` (src/core/tracker.py:44-50): write the
whole store to the file. -/
def trackerSave (s : Store) : StateFile :=
  .stored s

/-- Embeds `StateTracker.is_processed` (src/core/tracker.py:52-61):
`recording_id in self.state`. -/
def isProcessed (s : Store) (rid : String) : Bool :=
  (storeGet s rid).isSome

/-- Embeds `StateTracker.mark_processed` (src/core/tracker.py:63-87):
upsert the entry, then persist.  Returns the new in-memory store together
with the saved file. -/
def markProcessed (s : Store) (rid vcon_uuid status now : String)
    (metadata : List (String × String)) : Store × StateFile :=
  let s' := storeSet s rid
    { vcon_uuid := vcon_uuid, timestamp := now, status := status,
      metadata := metadata }
  (s', trackerSave s')

/-- Embeds `StateTracker.get_vcon_uuid` (src/core/tracker.py:89-99). -/
def getVconUuid (s : Store) (rid : String) : Option String :=
  (storeGet s rid).map TrackerEntry.vcon_uuid

/-- Embeds `StateTracker.get_processing_status`
(src/core/tracker.py:101-111). -/
def getProcessingStatus (s : Store) (rid : String) : Option String :=
  (storeGet s rid).map TrackerEntry.status

/-! ### `core/poster.py`: the HTTP poster -/

/-- What happened inside the `try` block of `HttpPoster.post`: the
serialization raised, the request raised a transport-level exception, or
a response with some status code came back. -/
inductive PostAttempt where
  | serializationError
  | transportError
  | response (statusCode : Nat)
  deriving DecidableEq

/-- Embeds `HttpPoster.post` (src/core/poster.py:32-82): `True` exactly
for a response with `200 <= status_code < 300`; every exception is caught
and turned into `False`. -/
def posterPost (a : PostAttempt) : Bool :=
  match a with
  | .serializationError => false
  | .transportError => false
  | .response sc => if 200 ≤ sc ∧ sc < 300 then true else false

/-! ### `adapters/twilio/webhook.py`: the recording-status callback

`recording_status_callback` (src/adapters/twilio/webhook.py:88-211) is
embedded with the builder and poster outcomes as explicit oracles
(`buildResult` is what `builder.build` returns, `postSuccess` what
`poster.post` returns when invoked) and the current timestamp as an
argument.  `HandlerResult.built`/`posted` record whether the build and
the downstream POST were performed. -/

/-- The form fields of the callback that the handler's control flow and
tracker updates read. -/
structure WebhookInput where
  recordingSid : String
  recordingStatus : String
  callSid : String
  fromNumber : String
  toNumber : String

/-- Outcome of one handler invocation. -/
structure HandlerResult where
  response : String
  tracker : Store
  built : Bool
  posted : Bool

/-- Embeds `recording_status_callback`
(src/adapters/twilio/webhook.py:130-211): ignore non-`completed`
statuses, skip already-processed recordings, otherwise build, post, and
mark the recording processed with status `success`, `build_failed`, or
`post_failed`. -/
def recordingStatusCallback (tracker : Store) (inp : WebhookInput)
    (buildResult : Option VconRecord) (postSuccess : Bool)
    (now : String) : HandlerResult :=
  if inp.recordingStatus ≠ "completed" then
    { response := "OK", tracker := tracker, built := false, posted := false }
  else if isProcessed tracker inp.recordingSid then
    { response := "OK", tracker := tracker, built := false, posted := false }
  else
    let metadata := [("call_sid", inp.callSid), ("from_number", inp.fromNumber),
                     ("to_number", inp.toNumber)]
    match buildResult with
    | none =>
        { response := "OK",
          tracker := (markProcessed tracker inp.recordingSid "" "build_failed"
            now metadata).1,
          built := true, posted := false }
    | some vcon =>
        if postSuccess then
          { response := "OK",
            tracker := (markProcessed tracker inp.recordingSid vcon.uuid
              "success" now metadata).1,
            built := true, posted := true }
        else
          { response := "OK",
            tracker := (markProcessed tracker inp.recordingSid vcon.uuid
              "post_failed" now metadata).1,
            built := true, posted := true }

/-- Number of downstream POSTs performed over two consecutive handler
invocations (the second starting from the first one's tracker state). -/
def twoRunPostCount (tracker : Store) (inp₁ inp₂ : WebhookInput)
    (build₁ build₂ : Option VconRecord) (post₁ post₂ : Bool)
    (now₁ now₂ : String) : Nat :=
  let r₁ := recordingStatusCallback tracker inp₁ build₁ post₁ now₁
  let r₂ := recordingStatusCallback r₁.tracker inp₂ build₂ post₂ now₂
  (if r₁.posted then 1 else 0) + (if r₂.posted then 1 else 0)

/-! ### Concrete fixtures used to instantiate the theorems -/

/-- A payload with a single key. -/
def singletonPayload (key val : String) : Payload :=
  fun k => if k = key then some val else none

/-- A payload holding one representative key per parser field chain. -/
def c5Payload : Payload := fun k =>
  if k = "RecordingSid" then some "RE1"
  else if k = "call_uuid" then some "fs-uuid-1"
  else if k = "Uniqueid" then some "ast-1700000000.1"
  else if k = "call_control_id" then some "tx-cc-1"
  else if k = "recordingId" then some "r-bw-1"
  else if k = "from" then some "+15551234567"
  else if k = "to" then some "+15559876543"
  else none

/-- A Twilio callback for a completed recording. -/
def c1Input : WebhookInput :=
  { recordingSid := "RE1", recordingStatus := "completed",
    callSid := "CA1", fromNumber := "+15551234567",
    toNumber := "+15559876543" }

/-- A Twilio callback whose recording is still in progress. -/
def c10Input : WebhookInput :=
  { recordingSid := "RE1", recordingStatus := "in-progress",
    callSid := "CA1", fromNumber := "+15551234567",
    toNumber := "+15559876543" }

/-- A built record, as the build oracle's success value. -/
def c1Vcon : VconRecord :=
  { uuid := "vcon-uuid-1", created_at := "2024-01-15T10:29:30+00:00",
    parties := ["+15551234567", "+15559876543"], dialogs := [], tags := [] }

/-- A normalized recording with a non-empty recording location. -/
def c2Recording : RecordingData :=
  { recording_id := "RE1", from_number := "+15551234567",
    to_number := "+15559876543", direction := "inbound",
    recording_url := "https://api.twilio.com/recordings/RE1",
    duration_seconds := some 30,
    start_time := "2024-01-15T10:29:30+00:00",
    platform_tags := [("call_sid", "CA1")] }

/-! ## Shared helper lemmas -/

/-- Under a well-formed payload, a `dict.get` with default is non-empty
exactly when the key is present or the default is non-empty. -/
theorem dictGetD_ne_empty_iff {p : Payload} (wf : WellFormed p)
    (k d : String) : dictGetD p k d ≠ "" ↔ ((p k).isSome ∨ d ≠ "") := by
  cases h : p k with
  | none => simp [dictGetD, h]
  | some v => simp [dictGetD, h, wf k v h]

/-- Looking up the key just assigned returns the assigned entry. -/
theorem storeGet_storeSet_self (s : Store) (rid : String)
    (e : TrackerEntry) : storeGet (storeSet s rid e) rid = some e := by
  induction s with
  | nil => simp [storeSet, storeGet]
  | cons kv rest ih =>
      by_cases h : kv.1 = rid <;> simp [storeSet, storeGet, h, ih]

/-- A recording id is processed right after being marked. -/
theorem isProcessed_storeSet_self (s : Store) (rid : String)
    (e : TrackerEntry) : isProcessed (storeSet s rid e) rid = true := by
  simp [isProcessed, storeGet_storeSet_self]

/-! ## Claim theorems -/

/-- C4: `_determine_originator` is a total two-way classification: the
index is 0 exactly when the lowercased direction is one of `outbound`,
`outbound-api`, `outgoing`, and 1 in every other case — including
`inbound`, the empty string, and unrecognized values; there is no third
outcome. -/
theorem c4_originator_total_two_way :
    ∀ direction : String,
      (determineOriginator direction = 0 ∨ determineOriginator direction = 1) ∧
      (determineOriginator direction = 0 ↔
        (strToLower direction = "outbound" ∨
         strToLower direction = "outbound-api" ∨
         strToLower direction = "outgoing")) ∧
      determineOriginator "inbound" = 1 ∧
      determineOriginator "" = 1 ∧
      determineOriginator "Outbound-API" = 0 ∧
      determineOriginator "weird-direction" = 1 := by
  intro direction
  refine ⟨?_, ?_, by decide, by decide, by decide, by decide⟩ <;>
    unfold determineOriginator <;> split <;> simp_all

/-- C5: across the five parsers, `recording_id`, `from_number` and
`to_number` on a well-formed payload are non-empty exactly when the
primary key or some fallback key is present. -/
theorem c5_parser_field_fallback (p : Payload) (wf : WellFormed p) :
    (twilioRecordingId p ≠ "" ↔ (p "RecordingSid").isSome) ∧
    (twilioFromNumber p ≠ "" ↔ (p "From").isSome) ∧
    (twilioToNumber p ≠ "" ↔ (p "To").isSome) ∧
    (freeswitchRecordingId p ≠ "" ↔
      ((p "uuid").isSome ∨ (p "call_uuid").isSome)) ∧
    (freeswitchFromNumber p ≠ "" ↔
      ((p "caller_id_number").isSome ∨ (p "Caller-Caller-ID-Number").isSome)) ∧
    (freeswitchToNumber p ≠ "" ↔
      ((p "destination_number").isSome ∨
        (p "Caller-Destination-Number").isSome)) ∧
    (asteriskRecordingId p ≠ "" ↔
      ((p "recording_name").isSome ∨ (p "name").isSome ∨
        (p "Uniqueid").isSome)) ∧
    (asteriskFromNumber p ≠ "" ↔
      ((p "caller_id_num").isSome ∨ (p "CallerIDNum").isSome)) ∧
    (asteriskToNumber p ≠ "" ↔
      ((p "connected_line_num").isSome ∨ (p "ConnectedLineNum").isSome ∨
        (p "extension").isSome)) ∧
    (telnyxRecordingId p ≠ "" ↔
      ((p "recording_id").isSome ∨ (p "call_control_id").isSome)) ∧
    (telnyxFromNumber p ≠ "" ↔ (p "from").isSome) ∧
    (telnyxToNumber p ≠ "" ↔ (p "to").isSome) ∧
    (bandwidthRecordingId p ≠ "" ↔ (p "recordingId").isSome) ∧
    (bandwidthFromNumber p ≠ "" ↔ (p "from").isSome) ∧
    (bandwidthToNumber p ≠ "" ↔ (p "to").isSome) := by
  refine ⟨?_, ?_, ?_, ?_, ?_, ?_, ?_, ?_, ?_, ?_, ?_, ?_, ?_, ?_, ?_⟩ <;>
    simp [twilioRecordingId, twilioFromNumber, twilioToNumber,
      freeswitchRecordingId, freeswitchFromNumber, freeswitchToNumber,
      asteriskRecordingId, asteriskFromNumber, asteriskToNumber,
      telnyxRecordingId, telnyxFromNumber, telnyxToNumber,
      bandwidthRecordingId, bandwidthFromNumber, bandwidthToNumber,
      dictGetD_ne_empty_iff wf, or_assoc]

/-- C5 witness: concrete fallback-key payload, fields land non-empty or
empty exactly as the key presence dictates. -/
theorem c5_parser_field_fallback_witness :
    twilioRecordingId c5Payload ≠ "" ∧
    freeswitchRecordingId c5Payload ≠ "" ∧
    asteriskRecordingId c5Payload ≠ "" ∧
    telnyxRecordingId c5Payload ≠ "" ∧
    bandwidthRecordingId c5Payload ≠ "" ∧
    bandwidthFromNumber c5Payload ≠ "" ∧
    bandwidthToNumber c5Payload ≠ "" ∧
    asteriskFromNumber c5Payload = "" := by
  have wf : WellFormed c5Payload := by
    intro k v hv
    simp only [c5Payload] at hv
    repeat' split at hv
    all_goals try exact Option.noConfusion hv
    all_goals injection hv with hv
    all_goals subst hv
    all_goals decide
  have h := c5_parser_field_fallback c5Payload wf
  refine ⟨h.1.mpr (by decide), h.2.2.2.1.mpr (by decide),
    h.2.2.2.2.2.2.1.mpr (by decide),
    h.2.2.2.2.2.2.2.2.2.1.mpr (by decide),
    h.2.2.2.2.2.2.2.2.2.2.2.2.1.mpr (by decide),
    h.2.2.2.2.2.2.2.2.2.2.2.2.2.1.mpr (by decide),
    h.2.2.2.2.2.2.2.2.2.2.2.2.2.2.mpr (by decide), ?_⟩
  have hempty := h.2.2.2.2.2.2.2.1
  by_contra hne
  rcases hempty.mp hne with h1 | h1 <;> revert h1 <;> decide

/-- C6: an entry written with `mark_processed` (any record id, status and
extra correlation fields) and reloaded by a fresh tracker from the saved
state file yields the same `is_processed`, `get_vcon_uuid` and
`get_processing_status` answers as the original in-memory store, for
every queried recording id; and the written id itself reports processed
with the written record id and status. -/
theorem c6_tracker_roundtrip :
    ∀ (s : Store) (rid vconUuid status now : String)
      (metadata : List (String × String)) (query : String),
      isProcessed (trackerLoad (markProcessed s rid vconUuid status now metadata).2) query =
        isProcessed (markProcessed s rid vconUuid status now metadata).1 query ∧
      getVconUuid (trackerLoad (markProcessed s rid vconUuid status now metadata).2) query =
        getVconUuid (markProcessed s rid vconUuid status now metadata).1 query ∧
      getProcessingStatus (trackerLoad (markProcessed s rid vconUuid status now metadata).2) query =
        getProcessingStatus (markProcessed s rid vconUuid status now metadata).1 query ∧
      isProcessed (trackerLoad (markProcessed s rid vconUuid status now metadata).2) rid = true ∧
      getVconUuid (trackerLoad (markProcessed s rid vconUuid status now metadata).2) rid =
        some vconUuid ∧
      getProcessingStatus (trackerLoad (markProcessed s rid vconUuid status now metadata).2) rid =
        some status := by
  intro s rid vconUuid status now metadata query
  refine ⟨rfl, rfl, rfl, ?_, ?_, ?_⟩ <;>
    simp [markProcessed, trackerSave, trackerLoad, isProcessed, getVconUuid,
      getProcessingStatus, storeGet_storeSet_self]

/-- C7: loading from a missing or unparsable (empty or corrupt) state
file yields the empty store, so nothing is processed and both lookups
return `none` for every recording id; `trackerLoad` is total, so
construction never fails. -/
theorem c7_tracker_degradation :
    ∀ rid : String,
      trackerLoad .missing = ([] : Store) ∧
      trackerLoad .unparsable = ([] : Store) ∧
      isProcessed (trackerLoad .missing) rid = false ∧
      getVconUuid (trackerLoad .missing) rid = none ∧
      getProcessingStatus (trackerLoad .missing) rid = none ∧
      isProcessed (trackerLoad .unparsable) rid = false ∧
      getVconUuid (trackerLoad .unparsable) rid = none ∧
      getProcessingStatus (trackerLoad .unparsable) rid = none := by
  intro rid
  exact ⟨rfl, rfl, rfl, rfl, rfl, rfl, rfl, rfl⟩

/-- C8: `HttpPoster.post` reports `True` exactly for an HTTP response
with status in `[200, 300)`; any other status, and any exception during
serialization or the request, yields `False` rather than an exception. -/
theorem c8_poster_contract :
    ∀ a : PostAttempt,
      (posterPost a = true ↔
        ∃ sc, a = .response sc ∧ 200 ≤ sc ∧ sc < 300) ∧
      posterPost .serializationError = false ∧
      posterPost .transportError = false ∧
      posterPost (.response 200) = true ∧
      posterPost (.response 299) = true ∧
      posterPost (.response 199) = false ∧
      posterPost (.response 300) = false := by
  intro a
  refine ⟨?_, by decide, by decide, by decide, by decide, by decide, by decide⟩
  cases a with
  | serializationError => simp [posterPost]
  | transportError => simp [posterPost]
  | response sc =>
      by_cases h : 200 ≤ sc ∧ sc < 300 <;> simp [posterPost, h]

/-- C9: Asterisk direction inference: a non-empty explicit `direction`
field is returned lowercased; otherwise a `context` containing
`outbound` or `from-internal` (case-insensitively) yields `outbound`;
every other case — including the empty payload — yields `inbound`. -/
theorem c9_asterisk_direction (p : Payload) :
    (dictGetD p "direction" "" ≠ "" →
      asteriskDirection p = strToLower (dictGetD p "direction" "")) ∧
    (dictGetD p "direction" "" = "" →
      (strContainsSub (strToLower (dictGetD p "context" "")) "outbound" ||
        strContainsSub (strToLower (dictGetD p "context" "")) "from-internal") = true →
      asteriskDirection p = "outbound") ∧
    (dictGetD p "direction" "" = "" →
      (strContainsSub (strToLower (dictGetD p "context" "")) "outbound" ||
        strContainsSub (strToLower (dictGetD p "context" "")) "from-internal") = false →
      asteriskDirection p = "inbound") ∧
    asteriskDirection (fun _ => none) = "inbound" := by
  refine ⟨?_, ?_, ?_, by decide⟩
  · intro h1
    simp [asteriskDirection, h1]
  · intro h1 h2
    simp [asteriskDirection, h1, h2]
  · intro h1 h2
    simp [asteriskDirection, h1, h2]

/-- C9 witness: `context: From-Internal` with no explicit direction gives
`outbound`; the empty payload gives `inbound`; an explicit `OUT`
direction is returned lowercased. -/
theorem c9_asterisk_direction_witness :
    asteriskDirection (singletonPayload "context" "From-Internal") = "outbound" ∧
    asteriskDirection (fun _ => none) = "inbound" ∧
    asteriskDirection (singletonPayload "direction" "OUT") = "out" := by
  refine ⟨(c9_asterisk_direction
      (singletonPayload "context" "From-Internal")).2.1 (by decide) (by decide),
    (c9_asterisk_direction (fun _ => none)).2.2.2, ?_⟩
  have h := (c9_asterisk_direction (singletonPayload "direction" "OUT")).1
    (by decide)
  rw [h]
  decide

/-- C2: with downloading enabled and a non-empty recording location, the
built record has exactly one dialog; when the download yields no bytes
(`None` or an empty byte string) the dialog carries only a `url` equal to
the location with `.{format}` appended — no body, encoding, or filename;
when the download yields bytes the dialog carries the base64 body,
`base64` encoding and filename `{recording_id}.{format}` — and no `url`. -/
theorem c2_audio_attachment_branches (fmt src uuid : String)
    (rd : RecordingData) (audio : Option (List Nat))
    (hurl : rd.recording_url ≠ "") :
    (buildVcon true fmt src uuid rd audio).isSome ∧
    ∀ v, buildVcon true fmt src uuid rd audio = some v →
      v.dialogs.length = 1 ∧
      ∀ d ∈ v.dialogs,
        ((audio = none ∨ audio = some []) →
          d.url = some (rd.recording_url ++ "." ++ fmt) ∧
          d.body = none ∧ d.encoding = none ∧ d.filename = none) ∧
        (∀ bs, audio = some bs → bs ≠ [] →
          d.body = some (base64Encode bs) ∧ d.encoding = some "base64" ∧
          d.filename = some (rd.recording_id ++ "." ++ fmt) ∧
          d.url = none) := by
  constructor
  · simp [buildVcon]
  intro v hv
  cases audio with
  | none =>
      simp [buildVcon, hurl] at hv
      subst hv
      refine ⟨by simp, ?_⟩
      intro d hd
      simp at hd
      subst hd
      exact ⟨fun _ => ⟨rfl, rfl, rfl, rfl⟩, fun bs hbs => by cases hbs⟩
  | some bs =>
      cases bs with
      | nil =>
          simp [buildVcon, hurl] at hv
          subst hv
          refine ⟨by simp, ?_⟩
          intro d hd
          simp at hd
          subst hd
          refine ⟨fun _ => ⟨rfl, rfl, rfl, rfl⟩, fun bs' hbs' hne => ?_⟩
          injection hbs' with hbs'
          exact absurd hbs'.symm hne
      | cons b rest =>
          simp [buildVcon, hurl] at hv
          subst hv
          refine ⟨by simp, ?_⟩
          intro d hd
          simp at hd
          subst hd
          refine ⟨fun hcontra => ?_, fun bs' hbs' _ => ?_⟩
          · rcases hcontra with h | h <;> simp at h
          · injection hbs' with hbs'
            subst hbs'
            exact ⟨rfl, rfl, rfl, rfl⟩

/-- C2 witness: a failed download at a concrete recording yields the URL
reference and no body; a successful download yields the embedded body
and filename and no URL. -/
theorem c2_audio_attachment_branches_witness :
    (∃ v, buildVcon true "wav" "twilio_adapter" "u1" c2Recording none = some v ∧
      ∀ d ∈ v.dialogs,
        d.url = some "https://api.twilio.com/recordings/RE1.wav" ∧
        d.body = none ∧ d.filename = none) ∧
    (∃ v, buildVcon true "wav" "twilio_adapter" "u1" c2Recording
        (some [82, 73, 70, 70]) = some v ∧
      ∀ d ∈ v.dialogs,
        d.filename = some "RE1.wav" ∧ d.url = none ∧
        d.body = some (base64Encode [82, 73, 70, 70])) := by
  constructor
  · have h :=
      c2_audio_attachment_branches "wav" "twilio_adapter" "u1" c2Recording
        none (by decide)
    obtain ⟨v, hv⟩ := Option.isSome_iff_exists.mp h.1
    obtain ⟨_, hd⟩ := h.2 v hv
    refine ⟨v, hv, fun d hdm => ?_⟩
    obtain ⟨hurl, hbody, _, hfn⟩ := (hd d hdm).1 (Or.inl rfl)
    refine ⟨?_, hbody, hfn⟩
    rw [hurl]
    decide
  · have h :=
      c2_audio_attachment_branches "wav" "twilio_adapter" "u1" c2Recording
        (some [82, 73, 70, 70]) (by decide)
    obtain ⟨v, hv⟩ := Option.isSome_iff_exists.mp h.1
    obtain ⟨_, hd⟩ := h.2 v hv
    refine ⟨v, hv, fun d hdm => ?_⟩
    obtain ⟨hbody, _, hfn, hurl⟩ :=
      (hd d hdm).2 [82, 73, 70, 70] rfl (by decide)
    refine ⟨?_, hurl, hbody⟩
    rw [hfn]
    decide

/-- C3 counterexample: the invalid duration string `PTx` is not `None` —
the regex `re.match` anchors only at the start, so the `PT` prefix
matches with every component group absent and the parser returns `0.0`,
which the claim says can never happen for an invalid string. -/
theorem c3_invalid_duration_counterexample :
    bandwidthDurationSeconds (singletonPayload "duration" "PTx") = some 0 ∧
    bandwidthDurationSeconds (singletonPayload "duration" "PTx") ≠ none := by
  have h : bandwidthDurationSeconds (singletonPayload "duration" "PTx") =
      some 0 := by
    simp [bandwidthDurationSeconds, dictGetD, singletonPayload,
      isoDurationSeconds, parseUnit, parseSecondsGroup, digitsToNat]
  exact ⟨h, by rw [h]; simp⟩

/-- C3 amended: `PT30S` ↦ 30, `PT1M30S` ↦ 90, `PT1H30M45S` ↦ 5445
(hours·3600 + minutes·60 + seconds, absent components zero); a missing or
empty duration yields `None`; a duration string that does not begin with
`PT` yields `None`.  (Strings that begin with `PT` always parse — trailing
text the pattern cannot consume is ignored, so an invalid string with a
`PT` prefix yields the value of whatever prefix matched, `0.0` if
nothing.) -/
theorem c3_bandwidth_duration_parsing (p : Payload) :
    (dictGetD p "duration" "" = "PT30S" →
      bandwidthDurationSeconds p = some 30) ∧
    (dictGetD p "duration" "" = "PT1M30S" →
      bandwidthDurationSeconds p = some 90) ∧
    (dictGetD p "duration" "" = "PT1H30M45S" →
      bandwidthDurationSeconds p = some 5445) ∧
    (dictGetD p "duration" "" = "" → bandwidthDurationSeconds p = none) ∧
    (dictGetD p "duration" "" ≠ "" →
      (∀ cs, (dictGetD p "duration" "").toList ≠ 'P' :: 'T' :: cs) →
      bandwidthDurationSeconds p = none) := by
  refine ⟨?_, ?_, ?_, ?_, ?_⟩ <;> intro h
  · simp [bandwidthDurationSeconds, h, isoDurationSeconds, parseUnit,
      parseSecondsGroup, digitsToNat]
  · simp [bandwidthDurationSeconds, h, isoDurationSeconds, parseUnit,
      parseSecondsGroup, digitsToNat]
    norm_num
  · simp [bandwidthDurationSeconds, h, isoDurationSeconds, parseUnit,
      parseSecondsGroup, digitsToNat]
    norm_num
  · simp [bandwidthDurationSeconds, h]
  · intro hcs
    simp only [bandwidthDurationSeconds, if_neg h]
    unfold isoDurationSeconds
    split
    · next cs heq => exact absurd heq (hcs cs)
    · rfl

/-- C3 witness: the three documented values, plus `None` for a missing
duration and for a duration not starting with `PT`. -/
theorem c3_bandwidth_duration_parsing_witness :
    bandwidthDurationSeconds (singletonPayload "duration" "PT30S") = some 30 ∧
    bandwidthDurationSeconds (singletonPayload "duration" "PT1M30S") = some 90 ∧
    bandwidthDurationSeconds (singletonPayload "duration" "PT1H30M45S") =
      some 5445 ∧
    bandwidthDurationSeconds (fun _ => none) = none ∧
    bandwidthDurationSeconds (singletonPayload "duration" "30 seconds") =
      none := by
  refine ⟨(c3_bandwidth_duration_parsing _).1 (by decide),
    (c3_bandwidth_duration_parsing _).2.1 (by decide),
    (c3_bandwidth_duration_parsing _).2.2.1 (by decide),
    (c3_bandwidth_duration_parsing _).2.2.2.1 (by decide),
    (c3_bandwidth_duration_parsing _).2.2.2.2 (by decide) ?_⟩
  intro cs hcs
  have : dictGetD (singletonPayload "duration" "30 seconds") "duration" "" =
      "30 seconds" := by decide
  rw [this] at hcs
  simp at hcs

/-- C1 counterexample: when the first run's build fails (status
`build_failed`), running the pipeline twice performs zero downstream
POSTs, not exactly one — the tracker key blocks the retry, so the failed
recording is never posted. -/
theorem c1_exactly_one_post_counterexample :
    twoRunPostCount [] c1Input c1Input none none false false "t1" "t2" = 0 ∧
    twoRunPostCount [] c1Input c1Input none none false false "t1" "t2" ≠ 1 := by
  constructor <;> decide

/-- C1 amended: running the pipeline twice on a completed recording not
yet tracked performs at most one downstream POST — exactly one when the
first run's build succeeds, zero when it fails; after the first run the
key is present regardless of its status (`success`, `build_failed` or
`post_failed`), so the second run performs no build, no POST and no
tracker update and still returns `"OK"`. -/
theorem c1_idempotent_delivery (tracker : Store) (inp : WebhookInput)
    (build₁ build₂ : Option VconRecord) (post₁ post₂ : Bool)
    (now₁ now₂ : String)
    (hstatus : inp.recordingStatus = "completed")
    (hfresh : isProcessed tracker inp.recordingSid = false) :
    isProcessed (recordingStatusCallback tracker inp build₁ post₁ now₁).tracker
      inp.recordingSid = true ∧
    (recordingStatusCallback
      (recordingStatusCallback tracker inp build₁ post₁ now₁).tracker
      inp build₂ post₂ now₂).response = "OK" ∧
    (recordingStatusCallback
      (recordingStatusCallback tracker inp build₁ post₁ now₁).tracker
      inp build₂ post₂ now₂).built = false ∧
    (recordingStatusCallback
      (recordingStatusCallback tracker inp build₁ post₁ now₁).tracker
      inp build₂ post₂ now₂).posted = false ∧
    (recordingStatusCallback
      (recordingStatusCallback tracker inp build₁ post₁ now₁).tracker
      inp build₂ post₂ now₂).tracker =
      (recordingStatusCallback tracker inp build₁ post₁ now₁).tracker ∧
    twoRunPostCount tracker inp inp build₁ build₂ post₁ post₂ now₁ now₂ =
      (if build₁.isSome then 1 else 0) := by
  cases build₁ with
  | none =>
      simp [recordingStatusCallback, hstatus, hfresh, twoRunPostCount,
        markProcessed, trackerSave, isProcessed_storeSet_self]
  | some v =>
      cases post₁ <;>
        simp [recordingStatusCallback, hstatus, hfresh, twoRunPostCount,
          markProcessed, trackerSave, isProcessed_storeSet_self]

/-- C1 witness: a successful first run posts once; the second run is a
no-op that still acknowledges with `"OK"`. -/
theorem c1_idempotent_delivery_witness :
    twoRunPostCount [] c1Input c1Input (some c1Vcon) none true false
      "t1" "t2" = 1 ∧
    (recordingStatusCallback
      (recordingStatusCallback [] c1Input (some c1Vcon) true "t1").tracker
      c1Input none false "t2").response = "OK" ∧
    (recordingStatusCallback
      (recordingStatusCallback [] c1Input (some c1Vcon) true "t1").tracker
      c1Input none false "t2").posted = false := by
  have h := c1_idempotent_delivery [] c1Input (some c1Vcon) none true false
    "t1" "t2" rfl (by decide)
  exact ⟨by simpa using h.2.2.2.2.2, h.2.1, h.2.2.2.1⟩

/-- C10: a Twilio event whose `RecordingStatus` is not `completed` is
acknowledged with `"OK"` while nothing happens — no build, no POST, and
the tracker is untouched — so a later `completed` event for the same
recording id is still processed in full (it reaches the build, posts when
the build succeeds, and marks the id processed). -/
theorem c10_noncompleted_status_filter (tracker : Store)
    (inp : WebhookInput) (buildResult : Option VconRecord)
    (postSuccess : Bool) (now : String)
    (h : inp.recordingStatus ≠ "completed") :
    (recordingStatusCallback tracker inp buildResult postSuccess now).response = "OK" ∧
    (recordingStatusCallback tracker inp buildResult postSuccess now).tracker = tracker ∧
    (recordingStatusCallback tracker inp buildResult postSuccess now).built = false ∧
    (recordingStatusCallback tracker inp buildResult postSuccess now).posted = false ∧
    ∀ build₂ post₂ now₂,
      isProcessed tracker inp.recordingSid = false →
      (recordingStatusCallback
        (recordingStatusCallback tracker inp buildResult postSuccess now).tracker
        { inp with recordingStatus := "completed" } build₂ post₂ now₂).built = true ∧
      (build₂.isSome →
        (recordingStatusCallback
          (recordingStatusCallback tracker inp buildResult postSuccess now).tracker
          { inp with recordingStatus := "completed" } build₂ post₂ now₂).posted = true) ∧
      isProcessed
        (recordingStatusCallback
          (recordingStatusCallback tracker inp buildResult postSuccess now).tracker
          { inp with recordingStatus := "completed" } build₂ post₂ now₂).tracker
        inp.recordingSid = true := by
  refine ⟨by simp [recordingStatusCallback, h],
    by simp [recordingStatusCallback, h],
    by simp [recordingStatusCallback, h],
    by simp [recordingStatusCallback, h], ?_⟩
  intro build₂ post₂ now₂ hfresh
  cases build₂ with
  | none =>
      simp [recordingStatusCallback, h, hfresh, markProcessed, trackerSave,
        isProcessed_storeSet_self]
  | some v =>
      cases post₂ <;>
        simp [recordingStatusCallback, h, hfresh, markProcessed, trackerSave,
          isProcessed_storeSet_self]

/-- C10 witness: an `in-progress` event for a fresh recording is ignored
with `"OK"` and leaves the tracker empty; a later `completed` event for
the same id builds, posts and marks it processed. -/
theorem c10_noncompleted_status_filter_witness :
    (recordingStatusCallback [] c10Input (some c1Vcon) true "t1").response = "OK" ∧
    (recordingStatusCallback [] c10Input (some c1Vcon) true "t1").tracker = [] ∧
    (recordingStatusCallback [] c10Input (some c1Vcon) true "t1").posted = false ∧
    (recordingStatusCallback
      (recordingStatusCallback [] c10Input (some c1Vcon) true "t1").tracker
      { c10Input with recordingStatus := "completed" }
      (some c1Vcon) true "t2").built = true := by
  have h := c10_noncompleted_status_filter [] c10Input (some c1Vcon) true "t1"
    (by decide)
  exact ⟨h.1, h.2.1, h.2.2.2.1,
    (h.2.2.2.2 (some c1Vcon) true "t2" (by decide)).1⟩

/-- C4 witness: the classification at two concrete directions. -/
theorem c4_originator_total_two_way_witness :
    determineOriginator "outbound-api" = 0 ∧
    determineOriginator "inbound" = 1 := by
  have h := c4_originator_total_two_way "outbound-api"
  exact ⟨h.2.1.mpr (Or.inr (Or.inl (by decide))), h.2.2.1⟩

/-- C6 witness: a concrete entry survives the save–reload round trip. -/
theorem c6_tracker_roundtrip_witness :
    isProcessed (trackerLoad (markProcessed [] "RE1" "vcon-1" "success" "t1"
      [("call_sid", "CA1")]).2) "RE1" = true ∧
    getVconUuid (trackerLoad (markProcessed [] "RE1" "vcon-1" "success" "t1"
      [("call_sid", "CA1")]).2) "RE1" = some "vcon-1" ∧
    getProcessingStatus (trackerLoad (markProcessed [] "RE1" "vcon-1"
      "success" "t1" [("call_sid", "CA1")]).2) "RE1" = some "success" := by
  have h := c6_tracker_roundtrip [] "RE1" "vcon-1" "success" "t1"
    [("call_sid", "CA1")] "RE1"
  exact ⟨h.2.2.2.1, h.2.2.2.2.1, h.2.2.2.2.2⟩

/-- C7 witness: concrete lookups on trackers built from degraded files. -/
theorem c7_tracker_degradation_witness :
    isProcessed (trackerLoad .missing) "RE1" = false ∧
    getProcessingStatus (trackerLoad .unparsable) "RE1" = none := by
  have h := c7_tracker_degradation "RE1"
  exact ⟨h.2.2.1, h.2.2.2.2.2.2.2⟩

/-- C8 witness: a 201 response is success, a 500 response is failure. -/
theorem c8_poster_contract_witness :
    posterPost (.response 201) = true ∧ posterPost (.response 500) = false := by
  have h := c8_poster_contract (.response 201)
  have h2 := c8_poster_contract (.response 500)
  refine ⟨h.1.mpr ⟨201, rfl, by decide, by decide⟩, ?_⟩
  cases hpp : posterPost (.response 500) with
  | false => rfl
  | true =>
      obtain ⟨sc, hsc, _, h300⟩ := h2.1.mp hpp
      injection hsc with hsc
      omega

end VconAdapter
